import Mathlib

/-!
# Verification of the good-web-game 2D rendering core

Shallow embedding of `src/graphics/image.rs` and `src/graphics/context.rs`
(the instance-transform builder, the `Image` drawable, and the
`GraphicsContext` screen-coordinate / font-cache state), together with
theorems settling the specification's claims about them.

Modelling conventions:
* `f32` scalars are modelled by `ℚ` (exact arithmetic; every claim is
  algebraic, none depends on rounding).  Division is `ℚ`'s total field
  division, whose junk value at a zero denominator plays the role of the
  `f32` infinity/NaN junk: in both semantics a division by zero makes the
  orthographic corner property fail.
* `cgmath::Matrix4<f32>` is `Matrix (Fin 4) (Fin 4) ℚ` (row-indexed;
  cgmath stores matrices column-major but its `Mul` is the ordinary
  mathematical matrix product, which is all that matters here).
* `Matrix4::from_angle_z(Rad(r))` fills the rotation block with `cos r`
  and `sin r`; the builder is otherwise algebraic in these two numbers,
  so `DrawParam` carries the pair `(rotation_cos, rotation_sin)` in place
  of the transcendental angle, keeping every definition executable.
* GPU-resident handles (`miniquad::Pipeline`, `Shader`, `Buffer`,
  render passes) are opaque external resources; the embedding keeps the
  observable state the code reads or writes through them: the texture's
  applied filter mode, the contents of the per-instance vertex buffer,
  and the projection uniform.
* `u16` image dimensions are modelled by `ℕ` (the cast `as f32` is the
  numeral embedding `ℕ → ℚ`).
* External decoders (the `image` crate, `FontTexture::new` of
  `miniquad_text_rusttype`) are parameters of the functions that call
  them, supplied as total functions returning `Option`/`Bool` success.
* A Rust `panic!`/`unimplemented!` is the `Outcome.panicked` value of an
  explicit outcome type, distinct from a typed `GameResult` error.
-/

namespace GWG

/-- `graphics::types::Rect`: axis-aligned rectangle `(x, y, w, h)`. -/
structure Rect where
  x : ℚ
  y : ℚ
  w : ℚ
  h : ℚ
deriving DecidableEq

/-- `cgmath::Point2<f32>` / `cgmath::Vector2<f32>`. -/
structure Point2 where
  x : ℚ
  y : ℚ
deriving DecidableEq

/-- RGBA color multiplier of a `DrawParam`. -/
structure Color where
  r : ℚ
  g : ℚ
  b : ℚ
  a : ℚ
deriving DecidableEq

/-- `graphics::DrawParam`: destination point, normalized source sub-rect,
scale vector, rotation (represented by the cosine/sine pair that
`Matrix4::from_angle_z` puts into the matrix), normalized pivot offset,
and a color multiplier. -/
structure DrawParam where
  src : Rect
  dest : Point2
  rotation_cos : ℚ
  rotation_sin : ℚ
  scale : Point2
  offset : Point2
  color : Color
deriving DecidableEq

/-- 4x4 matrix over the scalar model. -/
abbrev Mat4 := Matrix (Fin 4) (Fin 4) ℚ

/-- 3x3 matrix (argument type of the unimplemented transform stack). -/
abbrev Mat3 := Matrix (Fin 3) (Fin 3) ℚ

/-- `cgmath::Matrix4::from_translation(Vector3::new(tx, ty, tz))`. -/
def from_translation (tx ty tz : ℚ) : Mat4 :=
  !![1, 0, 0, tx;
     0, 1, 0, ty;
     0, 0, 1, tz;
     0, 0, 0, 1]

/-- `cgmath::Matrix4::from_nonuniform_scale(sx, sy, sz)`. -/
def from_nonuniform_scale (sx sy sz : ℚ) : Mat4 :=
  !![sx, 0, 0, 0;
     0, sy, 0, 0;
     0, 0, sz, 0;
     0, 0, 0, 1]

/-- `cgmath::Matrix4::from_angle_z(Rad(r))`, written in terms of
`c = cos r` and `s = sin r` (counter-clockwise rotation about z). -/
def from_angle_z (c s : ℚ) : Mat4 :=
  !![c, -s, 0, 0;
     s, c, 0, 0;
     0, 0, 1, 0;
     0, 0, 0, 1]

/-- The local `real_size` of `param_to_instance_transform`
(image.rs:180): size of the selected source sub-rect in texture pixels. -/
def real_size (param : DrawParam) (width height : ℕ) : Point2 :=
  ⟨param.src.w * (width : ℚ), param.src.h * (height : ℚ)⟩

/-- The local `size_vec` of `param_to_instance_transform`
(image.rs:181): the on-screen size after applying `param.scale`. -/
def size_vec (param : DrawParam) (width height : ℕ) : Point2 :=
  ⟨(real_size param width height).x * param.scale.x,
   (real_size param width height).y * param.scale.y⟩

/-- The local `dest` of `param_to_instance_transform` (image.rs:183-186):
the destination adjusted by the normalized pivot offset. -/
def dest_vec (param : DrawParam) (width height : ℕ) : Point2 :=
  ⟨param.dest.x - (real_size param width height).x * param.offset.x * param.scale.x,
   param.dest.y - (real_size param width height).y * param.offset.y * param.scale.y⟩

/-- `param_to_instance_transform` (image.rs:175-196): composes
`pos * rot * pos0 * size` where `size` is the nonuniform scale by
`size_vec` (z scale 0), `pos` translates by `dest + size_vec/2`,
`rot` rotates about z, and `pos0` translates by `-size_vec/2`. -/
def param_to_instance_transform (param : DrawParam) (width height : ℕ) : Mat4 :=
  let size := from_nonuniform_scale (size_vec param width height).x
    (size_vec param width height).y 0
  let pos := from_translation
    ((dest_vec param width height).x + (size_vec param width height).x / 2)
    ((dest_vec param width height).y + (size_vec param width height).y / 2) 0
  let rot := from_angle_z param.rotation_cos param.rotation_sin
  let pos0 := from_translation (-(size_vec param width height).x / 2)
    (-(size_vec param width height).y / 2) 0
  pos * rot * pos0 * size

/-- The matrix prescribed by the specification's formula (§4.2):
`M = Translate(dest + size/2) * RotateZ(rotation) * Translate(-size/2) * Scale(size)`
with `real_size = (src.w*width, src.h*height)`,
`size = real_size * scale` and
`dest = param.dest - real_size * param.offset * param.scale`,
all componentwise.  The spec is two-dimensional; the irrelevant z entries
(the drawn geometry always has z = 0) follow the code's convention. -/
def specInstanceTransform (param : DrawParam) (width height : ℕ) : Mat4 :=
  let rs : Point2 := ⟨param.src.w * (width : ℚ), param.src.h * (height : ℚ)⟩
  let size : Point2 := ⟨rs.x * param.scale.x, rs.y * param.scale.y⟩
  let dest : Point2 := ⟨param.dest.x - rs.x * param.offset.x * param.scale.x,
                        param.dest.y - rs.y * param.offset.y * param.scale.y⟩
  from_translation (dest.x + size.x / 2) (dest.y + size.y / 2) 0
    * from_angle_z param.rotation_cos param.rotation_sin
    * from_translation (-size.x / 2) (-size.y / 2) 0
    * from_nonuniform_scale size.x size.y 0

/-- `graphics::FilterMode` (image.rs:47-51). -/
inductive FilterMode where
  | Linear
  | Nearest
deriving DecidableEq

/-- `miniquad::Texture`: external GPU texture handle; the embedding keeps
the state the code observes or mutates through it: dimensions and the
currently applied filter mode. -/
structure Texture where
  width : ℕ
  height : ℕ
  filter : FilterMode
deriving DecidableEq

/-- `Texture::from_rgba8(width, height, bytes)`: a fresh GPU texture of
the given dimensions (miniquad's default filter is linear).  The pixel
bytes live on the GPU and are not observable by any claim. -/
def Texture.from_rgba8 (width height : ℕ) (_bytes : List ℕ) : Texture :=
  ⟨width, height, FilterMode.Linear⟩

/-- `Texture::set_filter` (the underlying filter-apply operation). -/
def Texture.set_filter (t : Texture) (f : FilterMode) : Texture :=
  { t with filter := f }

/-- `InstanceAttributes` (image.rs:17-23): the per-draw record uploaded
into the per-instance vertex buffer. -/
structure InstanceAttributes where
  source : ℚ × ℚ × ℚ × ℚ
  color : ℚ × ℚ × ℚ × ℚ
  model : Mat4

/-- Modelled from the spec: the `GameError` enum of `error.rs` is not
under src/; the spec's error taxonomy (§7) needs at least typed decode
failures for fonts and images and a filesystem failure. -/
inductive GameError where
  | FontError
  | ImageError
  | FilesystemError
deriving DecidableEq

/-- Result of running a Rust call that may return normally, return a
typed `GameResult` error, or panic (abort). -/
inductive Outcome (α : Type) where
  | ok (value : α)
  | err (e : GameError)
  | panicked

/-- Modelled from the spec: `BlendMode` is declared outside src/;
`set_blend_mode` ignores its argument, so only inhabitedness matters. -/
inductive BlendMode where
  | Alpha
  | Add
deriving DecidableEq

/-- `graphics::Image` (image.rs:36-45).  The GPU pipeline and the
vertex/index buffers of `bindings` are immutable handles created at
construction; the mutable observable state is the texture's filter, the
cached dimensions, the requested filter with its dirty flag, and the
contents of the per-instance stream buffer (`bindings.vertex_buffers[1]`). -/
structure Image where
  texture : Texture
  width : ℕ
  height : ℕ
  filter : FilterMode
  dirty_filter : Bool
  instance_buffer : Option InstanceAttributes

/-- `Image::from_texture` (image.rs:87-150): builds buffers, shader and
pipeline and always returns `Ok`; the instance stream buffer starts
empty, the filter is linear with a clear dirty flag. -/
def Image.from_texture (texture : Texture) : Except GameError Image :=
  Except.ok
    { texture := texture
      width := texture.width
      height := texture.height
      filter := FilterMode.Linear
      dirty_filter := false
      instance_buffer := none }

/-- `Image::from_rgba8` (image.rs:76-85). -/
def Image.from_rgba8 (width height : ℕ) (bytes : List ℕ) : Except GameError Image :=
  Image.from_texture (Texture.from_rgba8 width height bytes)

/-- `Image::from_png_bytes` (image.rs:65-74).  The external decoder
(`image::load_from_memory` followed by `to_rgba`) is the parameter
`decode`, returning the pixel width, height and RGBA bytes on success.
On decode failure the code runs `unwrap_or_else(|e| panic!(e))`: it
panics instead of returning the `GameResult` error its signature
promises.  On success the `u32` dimensions are cast `as u16`
(truncation mod 2^16) and handed to `from_rgba8`. -/
def Image.from_png_bytes (decode : List ℕ → Option (ℕ × ℕ × List ℕ))
    (bytes : List ℕ) : Outcome Image :=
  match decode bytes with
  | none => Outcome.panicked
  | some (w, h, pix) =>
    match Image.from_rgba8 (w % 2 ^ 16) (h % 2 ^ 16) pix with
    | Except.ok img => Outcome.ok img
    | Except.error e => Outcome.err e

/-- `Image::set_filter` (image.rs:165-168): store `true` into the dirty
flag, then record the requested filter. -/
def Image.set_filter (img : Image) (filter : FilterMode) : Image :=
  { img with dirty_filter := true, filter := filter }

/-- `<Image as Drawable>::draw` (image.rs:199-229).  Computes the
instance transform, lazily applies a pending filter change to the
texture (clearing the dirty flag), uploads one `InstanceAttributes`
record into the instance buffer, issues the draw call and returns
`Ok(())`.  The second component is the updated image state and the third
counts how many times `Texture::set_filter` ran during this draw. -/
def Image.draw (img : Image) (param : DrawParam) :
    Except GameError Unit × Image × ℕ :=
  let transform := param_to_instance_transform param img.width img.height
  let (img1, filter_applies) :=
    if img.dirty_filter then
      ({ img with dirty_filter := false,
                  texture := img.texture.set_filter img.filter }, 1)
    else (img, 0)
  let inst : InstanceAttributes :=
    { model := transform
      source := (param.src.x, param.src.y, param.src.w, param.src.h)
      color := (param.color.r, param.color.g, param.color.b, param.color.a) }
  (Except.ok (), { img1 with instance_buffer := some inst }, filter_applies)

/-- `<Image as Drawable>::set_blend_mode` (image.rs:231): an empty body. -/
def Image.set_blend_mode (img : Image) (_mode : Option BlendMode) : Image :=
  img

/-- `miniquad_text_rusttype::FontTexture`: external glyph atlas,
modelled by the inputs it was rasterized from (font bytes, pixel size). -/
structure FontTexture where
  data : List ℕ
  size : ℕ
deriving DecidableEq

/-- `DEFAULT_FONT_BYTES` (context.rs:11-14): the bundled DejaVuSerif.ttf
blob; its concrete bytes are opaque to every claim. -/
def DEFAULT_FONT_BYTES : List ℕ := []

/-- The free function `load_font` (context.rs:176-187): wraps
`FontTexture::new`, which can fail on malformed font data; the external
rasterizer's success is the parameter `decode_ok`. -/
def load_font_free (decode_ok : List ℕ → ℕ → Bool)
    (font_data : List ℕ) (font_size : ℕ) : Except GameError FontTexture :=
  if decode_ok font_data font_size then Except.ok ⟨font_data, font_size⟩
  else Except.error GameError.FontError

/-- `GraphicsContext` (context.rs:16-27): the observable process-wide
state — screen rectangle, projection matrix, append-only font cache and
default font size.  The white texture, the three pipelines and the text
system are immutable GPU handles created once at construction. -/
structure GraphicsContext where
  screen_rect : Rect
  projection : Mat4
  fonts_cache : List FontTexture
  font_size : ℕ

/-- `GraphicsContext::new` (context.rs:30-140): identity projection,
screen rect `(-1,-1,2,2)`, and a font cache holding exactly the default
font rasterized at size 70 (the bundled font always decodes; the code
unwraps it). -/
def GraphicsContext.new : GraphicsContext :=
  { screen_rect := ⟨-1, -1, 2, 2⟩
    projection := 1
    fonts_cache := [⟨DEFAULT_FONT_BYTES, 70⟩]
    font_size := 50 }

/-- `GraphicsContext::load_font` (context.rs:144-155): decode, push the
new font, return `fonts_cache.len() - 1`. -/
def GraphicsContext.load_font (g : GraphicsContext)
    (decode_ok : List ℕ → ℕ → Bool) (font_bytes : List ℕ) (font_size : ℕ) :
    Except GameError (GraphicsContext × ℕ) :=
  match load_font_free decode_ok font_bytes font_size with
  | Except.error e => Except.error e
  | Except.ok font =>
    let g1 := { g with fonts_cache := g.fonts_cache ++ [font] }
    Except.ok (g1, g1.fonts_cache.length - 1)

/-- `GraphicsContext::set_transform` (context.rs:157-159): body is
`unimplemented!()`, which panics for every argument. -/
def GraphicsContext.set_transform (_g : GraphicsContext) (_t : Mat3) :
    Outcome Unit :=
  Outcome.panicked

/-- `GraphicsContext::push_transform` (context.rs:161-163):
`unimplemented!()`. -/
def GraphicsContext.push_transform (_g : GraphicsContext) (_t : Mat3) :
    Outcome Unit :=
  Outcome.panicked

/-- `GraphicsContext::pop_transform` (context.rs:165-167):
`unimplemented!()`. -/
def GraphicsContext.pop_transform (_g : GraphicsContext) : Outcome Unit :=
  Outcome.panicked

/-- `cgmath::ortho(left, right, bottom, top, near, far)`: the OpenGL
orthographic projection matrix. -/
def ortho (l r b t n f : ℚ) : Mat4 :=
  !![2 / (r - l), 0, 0, -(r + l) / (r - l);
     0, 2 / (t - b), 0, -(t + b) / (t - b);
     0, 0, -2 / (f - n), -(f + n) / (f - n);
     0, 0, 0, 1]

/-- `GraphicsContext::set_screen_coordinates` (context.rs:169-173). -/
def GraphicsContext.set_screen_coordinates (g : GraphicsContext)
    (rect : Rect) : GraphicsContext :=
  { g with
    screen_rect := rect
    projection := ortho rect.x (rect.x + rect.w) (rect.y + rect.h) rect.y (-1) 1 }

/-- Projection of a screen-space point through a projection matrix, as
the vertex shader does (`Projection * vec4(position, 0, 1)`), returning
the clip-space x/y pair. -/
def project (m : Mat4) (px py : ℚ) : ℚ × ℚ :=
  (m.mulVec ![px, py, 0, 1] 0, m.mulVec ![px, py, 0, 1] 1)

/-- Example draw parameter with unit scale, zero rotation, zero offset. -/
def pId : DrawParam :=
  { src := ⟨0, 0, 1, 1⟩
    dest := ⟨3, 4⟩
    rotation_cos := 1
    rotation_sin := 0
    scale := ⟨1, 1⟩
    offset := ⟨0, 0⟩
    color := ⟨1, 1, 1, 1⟩ }

/-- Example draw parameter with centered pivot `offset = (1/2, 1/2)`. -/
def pHalf : DrawParam :=
  { src := ⟨0, 0, 1, 1⟩
    dest := ⟨10, 20⟩
    rotation_cos := 1
    rotation_sin := 0
    scale := ⟨2, 3⟩
    offset := ⟨1 / 2, 1 / 2⟩
    color := ⟨1, 1, 1, 1⟩ }

/-- Example image: 2x2 texture, clean dirty flag. -/
def imgEx : Image :=
  { texture := ⟨2, 2, FilterMode.Linear⟩
    width := 2
    height := 2
    filter := FilterMode.Linear
    dirty_filter := false
    instance_buffer := none }

end GWG

namespace GWG

/-- Action of a translation matrix on a homogeneous column vector. -/
theorem from_translation_mulVec (tx ty tz a b c d : ℚ) :
    (from_translation tx ty tz).mulVec ![a, b, c, d]
      = ![a + tx * d, b + ty * d, c + tz * d, d] := by
  funext i
  fin_cases i <;>
    simp [from_translation, Matrix.mulVec, Matrix.dotProduct, Fin.sum_univ_four]

/-- Action of a nonuniform scale matrix on a homogeneous column vector. -/
theorem from_nonuniform_scale_mulVec (sx sy sz a b c d : ℚ) :
    (from_nonuniform_scale sx sy sz).mulVec ![a, b, c, d]
      = ![sx * a, sy * b, sz * c, d] := by
  funext i
  fin_cases i <;>
    simp [from_nonuniform_scale, Matrix.mulVec, Matrix.dotProduct, Fin.sum_univ_four]

/-- Action of the z-rotation matrix on a homogeneous column vector. -/
theorem from_angle_z_mulVec (c s a b cz d : ℚ) :
    (from_angle_z c s).mulVec ![a, b, cz, d]
      = ![c * a - s * b, s * a + c * b, cz, d] := by
  funext i
  fin_cases i <;>
    simp [from_angle_z, Matrix.mulVec, Matrix.dotProduct, Fin.sum_univ_four]
  ring

/-- C1: the instance transform builder returns exactly the matrix
`Translate(dest + size/2) * RotateZ(rotation) * Translate(-size/2) * Scale(size)`
of the spec, with `real_size`, `size` and `dest` computed as the spec
prescribes, composed in exactly this order. -/
theorem param_to_instance_transform_eq_spec (param : DrawParam) (width height : ℕ) :
    param_to_instance_transform param width height
      = specInstanceTransform param width height := rfl

/-- C6: with unit scale, zero rotation and zero offset, the builder's
matrix sends every point `(u, v)` of the unit quad to
`dest + (u * src.w * width, v * src.h * height)`: a pure
translation-and-size mapping with no rotation component, placing the
quad exactly on the axis-aligned rect of size
`(src.w * width, src.h * height)` at `param.dest`. -/
theorem transform_identity_maps_unit_quad (p : DrawParam) (width height : ℕ)
    (u v : ℚ) (hs : p.scale = ⟨1, 1⟩) (hc : p.rotation_cos = 1)
    (hsn : p.rotation_sin = 0) (ho : p.offset = ⟨0, 0⟩) :
    (param_to_instance_transform p width height).mulVec ![u, v, 0, 1]
      = ![p.dest.x + u * (p.src.w * (width : ℚ)),
          p.dest.y + v * (p.src.h * (height : ℚ)), 0, 1] := by
  simp only [param_to_instance_transform]
  rw [← Matrix.mulVec_mulVec, ← Matrix.mulVec_mulVec, ← Matrix.mulVec_mulVec,
    from_nonuniform_scale_mulVec, from_translation_mulVec, from_angle_z_mulVec,
    from_translation_mulVec]
  simp only [size_vec, real_size, dest_vec, hs, hc, hsn, ho]
  funext i
  fin_cases i <;> simp <;> ring

/-- C6 witness: concrete evaluation at `pId` (dest `(3,4)`, full source
rect) on a 2x2 image: the corner `(1,1)` of the unit quad lands on
`(3 + 2, 4 + 2)`. -/
theorem transform_identity_maps_unit_quad_witness :
    pId.scale = ⟨1, 1⟩ ∧ pId.rotation_cos = 1 ∧ pId.rotation_sin = 0 ∧
    pId.offset = ⟨0, 0⟩ ∧
    (param_to_instance_transform pId 2 2).mulVec ![1, 1, 0, 1]
      = ![pId.dest.x + 1 * (pId.src.w * ((2 : ℕ) : ℚ)),
          pId.dest.y + 1 * (pId.src.h * ((2 : ℕ) : ℚ)), 0, 1] :=
  ⟨rfl, rfl, rfl, rfl,
    transform_identity_maps_unit_quad pId 2 2 1 1 rfl rfl rfl rfl⟩

/-- C7: with `offset = (1/2, 1/2)` the adjusted destination of step 3 of
the builder equals `param.dest - size/2`, where `size` is the scaled
on-screen size — the half offset centers the pivot. -/
theorem offset_half_centers_pivot (p : DrawParam) (width height : ℕ)
    (ho : p.offset = ⟨1 / 2, 1 / 2⟩) :
    dest_vec p width height
      = ⟨p.dest.x - (size_vec p width height).x / 2,
         p.dest.y - (size_vec p width height).y / 2⟩ := by
  simp only [dest_vec, size_vec, real_size, ho, Point2.mk.injEq]
  constructor <;> ring

/-- C7 witness: concrete evaluation at `pHalf` (dest `(10,20)`, scale
`(2,3)`) on a 4x6 image: the adjusted destination is
`(10 - 8/2, 20 - 18/2) = (6, 11)`. -/
theorem offset_half_centers_pivot_witness :
    pHalf.offset = ⟨1 / 2, 1 / 2⟩ ∧
    dest_vec pHalf 4 6
      = ⟨pHalf.dest.x - (size_vec pHalf 4 6).x / 2,
         pHalf.dest.y - (size_vec pHalf 4 6).y / 2⟩ ∧
    dest_vec pHalf 4 6 = ⟨6, 11⟩ :=
  ⟨rfl, offset_half_centers_pivot pHalf 4 6 rfl,
    by norm_num [dest_vec, size_vec, real_size, pHalf, Point2.mk.injEq]⟩

/-- C2 (amended to non-degenerate rects): after
`set_screen_coordinates(rect)` with `rect.w ≠ 0` and `rect.h ≠ 0`, the
stored screen rectangle equals `rect`, the stored projection is
`ortho(x, x+w, y+h, y, -1, 1)`, and the four corners of the rect project
to the four corners of clip space `[-1,1] x [-1,1]` with the top-left
corner `(x, y)` on top (`Y = +1`): the Y axis is flipped. -/
theorem set_screen_coordinates_ortho (g : GraphicsContext) (rect : Rect)
    (hw : rect.w ≠ 0) (hh : rect.h ≠ 0) :
    (g.set_screen_coordinates rect).screen_rect = rect ∧
    (g.set_screen_coordinates rect).projection
      = ortho rect.x (rect.x + rect.w) (rect.y + rect.h) rect.y (-1) 1 ∧
    project (g.set_screen_coordinates rect).projection rect.x rect.y
      = (-1, 1) ∧
    project (g.set_screen_coordinates rect).projection (rect.x + rect.w)
      rect.y = (1, 1) ∧
    project (g.set_screen_coordinates rect).projection rect.x
      (rect.y + rect.h) = (-1, -1) ∧
    project (g.set_screen_coordinates rect).projection (rect.x + rect.w)
      (rect.y + rect.h) = (1, -1) := by
  have hw2 : rect.x + rect.w - rect.x ≠ 0 := by
    simpa using hw
  have hh2 : rect.y - (rect.y + rect.h) ≠ 0 := by
    intro h
    exact hh (by linarith)
  refine ⟨rfl, rfl, ?_, ?_, ?_, ?_⟩ <;>
  · simp only [GraphicsContext.set_screen_coordinates, project, ortho,
      Matrix.mulVec, Matrix.dotProduct, Fin.sum_univ_four, Prod.mk.injEq,
      Matrix.cons_val', Matrix.cons_val_zero, Matrix.cons_val_one,
      Matrix.head_cons, Matrix.empty_val', Matrix.cons_val_fin_one,
      Matrix.head_fin_const, Matrix.of_apply]
    constructor <;> field_simp <;> (ring_nf; try simp [mul_inv_cancel₀ hh])

/-- C2 counterexample: on the degenerate rect `(0, 0, 0, 0)` the claim's
round-trip fails — the top-left corner does not project to the top-left
of clip space (the orthographic matrix divides by the zero width and
height). -/
theorem set_screen_coordinates_degenerate :
    project ((GraphicsContext.new.set_screen_coordinates
      ⟨0, 0, 0, 0⟩).projection) 0 0 ≠ (-1, 1) := by
  simp [GraphicsContext.set_screen_coordinates, project, ortho,
    Matrix.mulVec, Matrix.dotProduct, Fin.sum_univ_four, Prod.ext_iff]

/-- C2 witness: concrete evaluation on the rect `(0, 0, 2, 2)`. -/
theorem set_screen_coordinates_ortho_witness :
    (⟨0, 0, 2, 2⟩ : Rect).w ≠ 0 ∧ (⟨0, 0, 2, 2⟩ : Rect).h ≠ 0 ∧
    ((GraphicsContext.new.set_screen_coordinates ⟨0, 0, 2, 2⟩).screen_rect
        = ⟨0, 0, 2, 2⟩ ∧
      (GraphicsContext.new.set_screen_coordinates ⟨0, 0, 2, 2⟩).projection
        = ortho 0 (0 + 2) (0 + 2) 0 (-1) 1 ∧
      project (GraphicsContext.new.set_screen_coordinates
        ⟨0, 0, 2, 2⟩).projection 0 0 = (-1, 1) ∧
      project (GraphicsContext.new.set_screen_coordinates
        ⟨0, 0, 2, 2⟩).projection (0 + 2) 0 = (1, 1) ∧
      project (GraphicsContext.new.set_screen_coordinates
        ⟨0, 0, 2, 2⟩).projection 0 (0 + 2) = (-1, -1) ∧
      project (GraphicsContext.new.set_screen_coordinates
        ⟨0, 0, 2, 2⟩).projection (0 + 2) (0 + 2) = (1, -1)) :=
  ⟨by norm_num, by norm_num,
    set_screen_coordinates_ortho GraphicsContext.new ⟨0, 0, 2, 2⟩
      (by norm_num) (by norm_num)⟩

/-- C3: on a byte stream whose image decode fails, `from_png_bytes`
panics (`unwrap_or_else(|e| panic!(e))`) instead of returning the typed
`GameResult` error its signature promises, while `load_font` on a byte
stream whose font decode fails does return the typed error.  This
refutes the image half of the claim and confirms the font half. -/
theorem from_png_bytes_panics_on_malformed :
    Image.from_png_bytes (fun _ => none) [] = Outcome.panicked ∧
    GraphicsContext.new.load_font (fun _ _ => false) [] 12
      = Except.error GameError.FontError :=
  ⟨rfl, rfl⟩

/-- Any `set_filter` call leaves the dirty flag set, and further calls
keep it set. -/
theorem foldl_set_filter_dirty (fs : List FilterMode) (img : Image)
    (h : img.dirty_filter = true) :
    (fs.foldl Image.set_filter img).dirty_filter = true := by
  induction fs generalizing img with
  | nil => exact h
  | cons f rest ih => exact ih (img.set_filter f) rfl

/-- C4: after any non-empty sequence of `set_filter` calls, the next
draw applies the texture filter exactly once and clears the dirty flag,
and a further draw with no intervening `set_filter` applies it zero
times. -/
theorem set_filter_amortized (img : Image) (fs : List FilterMode)
    (p q : DrawParam) (h : fs ≠ []) :
    ((fs.foldl Image.set_filter img).draw p).2.2 = 1 ∧
    ((fs.foldl Image.set_filter img).draw p).2.1.dirty_filter = false ∧
    ((((fs.foldl Image.set_filter img).draw p).2.1).draw q).2.2 = 0 := by
  rcases fs with _ | ⟨f, rest⟩
  · exact absurd rfl h
  · have hd : (List.foldl Image.set_filter (img.set_filter f)
        rest).dirty_filter = true :=
      foldl_set_filter_dirty rest (img.set_filter f) rfl
    refine ⟨?_, ?_, ?_⟩ <;> simp [Image.draw, hd]

/-- C4 witness: two successive `set_filter` calls on a clean 2x2 image,
then two draws. -/
theorem set_filter_amortized_witness :
    ([FilterMode.Nearest, FilterMode.Linear] ≠ ([] : List FilterMode)) ∧
    ((([FilterMode.Nearest, FilterMode.Linear].foldl Image.set_filter
        imgEx).draw pId).2.2 = 1 ∧
      ((([FilterMode.Nearest, FilterMode.Linear].foldl Image.set_filter
        imgEx).draw pId).2.1.dirty_filter = false ∧
      (((([FilterMode.Nearest, FilterMode.Linear].foldl Image.set_filter
        imgEx).draw pId).2.1).draw pHalf).2.2 = 0)) :=
  ⟨by simp,
    by
      have h := set_filter_amortized imgEx
        [FilterMode.Nearest, FilterMode.Linear] pId pHalf (by simp)
      exact ⟨h.1, h.2.1, h.2.2⟩⟩

/-- C5: the font cache is append-only with index-stable handles: a
fresh context holds exactly the default font at index 0; every
successful `load_font` appends one entry, returning its index (the old
length) at which the new font sits, so two loads after construction
return handles 1 and 2; and a byte-identical reload is not deduplicated
— it appends a new entry under the next handle. -/
theorem load_font_append_only (decode_ok : List ℕ → ℕ → Bool)
    (g : GraphicsContext) (b1 b2 : List ℕ) (s1 s2 : ℕ)
    (h1 : decode_ok b1 s1 = true) (h2 : decode_ok b2 s2 = true) :
    GraphicsContext.new.fonts_cache = [⟨DEFAULT_FONT_BYTES, 70⟩] ∧
    g.load_font decode_ok b1 s1
      = Except.ok ({ g with fonts_cache := g.fonts_cache ++ [⟨b1, s1⟩] },
          g.fonts_cache.length) ∧
    (g.fonts_cache ++ [⟨b1, s1⟩])[g.fonts_cache.length]?
      = some ⟨b1, s1⟩ ∧
    GraphicsContext.new.load_font decode_ok b1 s1
      = Except.ok ({ GraphicsContext.new with
          fonts_cache := [⟨DEFAULT_FONT_BYTES, 70⟩, ⟨b1, s1⟩] }, 1) ∧
    ({ GraphicsContext.new with
        fonts_cache := [⟨DEFAULT_FONT_BYTES, 70⟩, ⟨b1, s1⟩] }
      : GraphicsContext).load_font decode_ok b2 s2
      = Except.ok ({ GraphicsContext.new with
          fonts_cache := [⟨DEFAULT_FONT_BYTES, 70⟩, ⟨b1, s1⟩, ⟨b2, s2⟩] },
          2) ∧
    ({ g with fonts_cache := g.fonts_cache ++ [⟨b1, s1⟩] }
      : GraphicsContext).load_font decode_ok b1 s1
      = Except.ok ({ g with
          fonts_cache := g.fonts_cache ++ [⟨b1, s1⟩] ++ [⟨b1, s1⟩] },
          g.fonts_cache.length + 1) := by
  refine ⟨rfl, ?_, ?_, ?_, ?_, ?_⟩
  · simp [GraphicsContext.load_font, load_font_free, h1]
  · simp
  · simp [GraphicsContext.load_font, load_font_free, h1,
      GraphicsContext.new]
  · simp [GraphicsContext.load_font, load_font_free, h2,
      GraphicsContext.new]
  · simp [GraphicsContext.load_font, load_font_free, h1]

/-- C5 witness: concrete evaluation with an always-succeeding decoder,
the fresh context, and the two byte buffers `[1]` and `[2]`. -/
theorem load_font_append_only_witness :
    (fun (_ : List ℕ) (_ : ℕ) => true) [1] 3 = true ∧
    (fun (_ : List ℕ) (_ : ℕ) => true) [2] 4 = true ∧
    (GraphicsContext.new.fonts_cache = [⟨DEFAULT_FONT_BYTES, 70⟩] ∧
      GraphicsContext.new.load_font (fun _ _ => true) [1] 3
        = Except.ok ({ GraphicsContext.new with
            fonts_cache := GraphicsContext.new.fonts_cache ++ [⟨[1], 3⟩] },
            GraphicsContext.new.fonts_cache.length) ∧
      (GraphicsContext.new.fonts_cache
          ++ [⟨[1], 3⟩])[GraphicsContext.new.fonts_cache.length]?
        = some ⟨[1], 3⟩ ∧
      GraphicsContext.new.load_font (fun _ _ => true) [1] 3
        = Except.ok ({ GraphicsContext.new with
            fonts_cache := [⟨DEFAULT_FONT_BYTES, 70⟩, ⟨[1], 3⟩] }, 1) ∧
      ({ GraphicsContext.new with
          fonts_cache := [⟨DEFAULT_FONT_BYTES, 70⟩, ⟨[1], 3⟩] }
        : GraphicsContext).load_font (fun _ _ => true) [2] 4
        = Except.ok ({ GraphicsContext.new with
            fonts_cache := [⟨DEFAULT_FONT_BYTES, 70⟩, ⟨[1], 3⟩,
              ⟨[2], 4⟩] }, 2) ∧
      ({ GraphicsContext.new with
          fonts_cache := GraphicsContext.new.fonts_cache ++ [⟨[1], 3⟩] }
        : GraphicsContext).load_font (fun _ _ => true) [1] 3
        = Except.ok ({ GraphicsContext.new with
            fonts_cache := GraphicsContext.new.fonts_cache ++ [⟨[1], 3⟩]
              ++ [⟨[1], 3⟩] },
            GraphicsContext.new.fonts_cache.length + 1)) :=
  ⟨rfl, rfl,
    load_font_append_only (fun _ _ => true) GraphicsContext.new
      [1] [2] 3 4 rfl rfl⟩

/-- C8: each of the unimplemented transform-stack operations
(`set_transform`, `push_transform`, `pop_transform`) panics for every
argument: none of them returns successfully or silently no-ops. -/
theorem transform_stack_panics (g : GraphicsContext) (t : Mat3) :
    g.set_transform t = Outcome.panicked ∧
    g.push_transform t = Outcome.panicked ∧
    g.pop_transform = Outcome.panicked ∧
    g.set_transform t ≠ Outcome.ok () ∧
    g.push_transform t ≠ Outcome.ok () ∧
    g.pop_transform ≠ Outcome.ok () :=
  ⟨rfl, rfl, rfl, fun h => Outcome.noConfusion h,
    fun h => Outcome.noConfusion h, fun h => Outcome.noConfusion h⟩

/-- C8 witness: concrete evaluation at the fresh context and the zero
3x3 matrix. -/
theorem transform_stack_panics_witness :
    GraphicsContext.new.set_transform 0 = Outcome.panicked ∧
    GraphicsContext.new.push_transform 0 = Outcome.panicked ∧
    GraphicsContext.new.pop_transform = Outcome.panicked ∧
    GraphicsContext.new.set_transform 0 ≠ Outcome.ok () ∧
    GraphicsContext.new.push_transform 0 ≠ Outcome.ok () ∧
    GraphicsContext.new.pop_transform ≠ Outcome.ok () :=
  transform_stack_panics GraphicsContext.new 0

/-- C9: `Image::draw` returns `Ok(())` for every image and every draw
parameter: the draw path has no error-returning branch. -/
theorem draw_always_ok (img : Image) (param : DrawParam) :
    (img.draw param).1 = Except.ok () := by
  cases hd : img.dirty_filter <;> simp [Image.draw, hd]

/-- C10: `<Image as Drawable>::set_blend_mode` is a silent no-op: for
every image and every blend-mode argument (including `none`) it returns
normally with every field unchanged. -/
theorem set_blend_mode_noop (img : Image) (mode : Option BlendMode) :
    img.set_blend_mode mode = img := rfl

end GWG
